import Mathlib

/-!
# Verification of the kraken command-line grammar engine

Shallow embedding of the `Parser` class (pattern compilation, argument /
flag / parameter registration, type casting, and the three-phase token
extraction) together with the `Command.execute` pipeline, followed by
theorems checking the specification's claims against it.

Conventions of the embedding:

* JavaScript strings are Lean `String`s; the handful of JS string
  operations used by the source (`split`, `replace` with a single-character
  needle, `indexOf`, `splice`, `trim`, `toLowerCase`, template-literal
  interpolation of `undefined`) are defined below from scratch so that all
  proofs can evaluate them.
* JS objects used as string-keyed maps become association lists in
  insertion order (the iteration order of `for ... in` for the identifier
  keys used by this program); property assignment is insert-or-overwrite
  keeping the original position, `delete` removes the key.
* Thrown `FatalError`s become `Except FatalError` results.  The source has
  a single error class `FatalError(message)` (src/lib/error.ts); the
  spec's "ConfigurationError" / "ParseError" / "TypeError" kinds all
  denote a `FatalError` with the corresponding message.
* JS numbers for `parseInt` results are `Int`; `parseFloat` results are
  exact rationals `ℚ` (the embedding covers finite decimal literals, which
  is what every claim exercises; IEEE rounding and the `Infinity` literal
  are not modelled).
-/

namespace Kraken

/-- View of `Except` as a sum, used to decide equality of results. -/
def exceptToSum {ε α : Type} : Except ε α → ε ⊕ α
  | .error e => .inl e
  | .ok a => .inr a

instance {ε α : Type} [DecidableEq ε] [DecidableEq α] : DecidableEq (Except ε α) :=
  fun a b =>
    decidable_of_iff (exceptToSum a = exceptToSum b)
      (by cases a <;> cases b <;> simp [exceptToSum])

/-! ## JS string and list primitives -/

/-- JS template-literal interpolation of a possibly-`undefined` string:
`` `${x}` `` prints the string itself, and prints `undefined` for an
absent value. -/
def jsInterp : Option String → String
  | some s => s
  | none => "undefined"

/-- Remove the first occurrence of the character `c` (JS
`s.replace('c', '')`, whose string-pattern form replaces only the first
match). -/
def removeFirst (c : Char) : List Char → List Char
  | [] => []
  | x :: xs => if x = c then xs else x :: removeFirst c xs

/-- JS `s.replace(c, '')` for a single-character pattern `c`. -/
def jsReplaceRemove (s : String) (c : Char) : String :=
  ⟨removeFirst c s.data⟩

/-- Split a character list on a separator character, keeping empty
pieces (JS `String.prototype.split` with a one-character separator). -/
def splitOnCharAux (c : Char) : List Char → List Char → List (List Char)
  | [], acc => [acc.reverse]
  | x :: xs, acc =>
    if x = c then acc.reverse :: splitOnCharAux c xs []
    else splitOnCharAux c xs (x :: acc)

/-- JS `s.split(c)` for a one-character separator: always returns at least
one piece; `"".split(c) = [""]`. -/
def jsSplit (s : String) (c : Char) : List String :=
  (splitOnCharAux c s.data []).map fun l => ⟨l⟩

/-- JS `Array.prototype.indexOf`: index of the first occurrence, `none`
standing for JS's `-1`. -/
def jsIndexOf : List String → String → Option Nat
  | [], _ => none
  | x :: xs, t => if x = t then some 0 else (jsIndexOf xs t).map (· + 1)

/-- JS `arr.splice(i, n)` (as used by the source only for its removal
effect): the array with `n` elements removed starting at index `i`. -/
def jsSplice (l : List String) (i n : Nat) : List String :=
  l.take i ++ l.drop (i + n)

/-- JS `s.trim()` (the source only ever trims ordinary ASCII whitespace). -/
def jsTrim (s : String) : String :=
  ⟨((s.data.dropWhile Char.isWhitespace).reverse.dropWhile Char.isWhitespace).reverse⟩

/-- JS `s.toLowerCase()` (ASCII; the compared literals are ASCII). -/
def jsToLower (s : String) : String :=
  ⟨s.data.map Char.toLower⟩

/-! ## JS numeric parsing (`parseInt` / `parseFloat`) -/

/-- Decimal digits to a natural number. -/
def digitsToNat (ds : List Char) : Nat :=
  ds.foldl (fun a c => 10 * a + (c.toNat - 48)) 0

/-- Hexadecimal digit test. -/
def isHexDigitChar (c : Char) : Bool :=
  c.isDigit || (97 ≤ c.toNat && c.toNat ≤ 102) || (65 ≤ c.toNat && c.toNat ≤ 70)

/-- Hexadecimal digit value. -/
def hexVal (c : Char) : Nat :=
  if c.isDigit then c.toNat - 48
  else if 97 ≤ c.toNat then c.toNat - 87
  else c.toNat - 55

/-- Hexadecimal digits to a natural number. -/
def hexDigitsToNat (ds : List Char) : Nat :=
  ds.foldl (fun a c => 16 * a + hexVal c) 0

/-- Membership of a character in a list (JS `s.indexOf(c) > -1`). -/
def containsChar : List Char → Char → Bool
  | [], _ => false
  | x :: xs, c => x = c || containsChar xs c

/-- Leading sign of a JS numeric literal: `-1`/`+1` and the remaining
characters. -/
def jsSign : List Char → Int × List Char
  | [] => (1, [])
  | c :: r => if c = '-' then (-1, r) else if c = '+' then (1, r) else (1, c :: r)

/-- JS `parseInt(s)` with no radix argument: skip leading whitespace, an
optional sign, auto-detect a `0x`/`0X` prefix (radix 16), then take the
longest prefix of digits of the radix; `none` stands for `NaN` (no digit
at all). -/
def parseIntJS (s : String) : Option Int :=
  let cs := s.data.dropWhile Char.isWhitespace
  let sr := jsSign cs
  let hexForm : Bool :=
    (sr.2[0]? == some '0') && ((sr.2[1]? == some 'x') || (sr.2[1]? == some 'X'))
  if hexForm then
    let ds := (sr.2.drop 2).takeWhile isHexDigitChar
    if ds = [] then none else some (sr.1 * (hexDigitsToNat ds : Int))
  else
    let ds := sr.2.takeWhile Char.isDigit
    if ds = [] then none else some (sr.1 * (digitsToNat ds : Int))

/-- The discrete content of a parsed finite decimal literal:
`sign * (intVal + fracVal / 10^fracLen) * 10^exp`. -/
structure FloatParts : Type where
  sign : Int
  intVal : Nat
  fracVal : Nat
  fracLen : Nat
  exp : Int
deriving DecidableEq

/-- The longest-prefix decimal-literal scan of JS `parseFloat`: skip
leading whitespace, optional sign, then
`digits [. digits] [e/E [sign] digits]` with at least one digit before or
after the dot; the rest of the string is ignored; `none` stands for
`NaN`.  (JS additionally accepts an `Infinity` literal, which no claim
exercises and which has no finite rational value.) -/
def parseFloatParts (s : String) : Option FloatParts :=
  let cs := s.data.dropWhile Char.isWhitespace
  let sr := jsSign cs
  let intDs := sr.2.takeWhile Char.isDigit
  let rest1 := sr.2.drop intDs.length
  let fracPair : List Char × List Char :=
    match rest1 with
    | '.' :: r => (r.takeWhile Char.isDigit, r.drop (r.takeWhile Char.isDigit).length)
    | _ => ([], rest1)
  if intDs = [] ∧ fracPair.1 = [] then none
  else
    let expV : Int :=
      match fracPair.2 with
      | e :: r =>
        if e = 'e' ∨ e = 'E' then
          match r with
          | '-' :: r2 =>
            let ds := r2.takeWhile Char.isDigit
            if ds = [] then 0 else -(digitsToNat ds : Int)
          | '+' :: r2 =>
            let ds := r2.takeWhile Char.isDigit
            if ds = [] then 0 else (digitsToNat ds : Int)
          | r2 =>
            let ds := r2.takeWhile Char.isDigit
            if ds = [] then 0 else (digitsToNat ds : Int)
        else 0
      | [] => 0
    some ⟨sr.1, digitsToNat intDs, digitsToNat fracPair.1, fracPair.1.length, expV⟩

/-- The rational value of a parsed decimal literal. -/
def ratOfParts (f : FloatParts) : ℚ :=
  (f.sign : ℚ) * ((f.intVal : ℚ) + (f.fracVal : ℚ) / (10 : ℚ) ^ f.fracLen)
    * (10 : ℚ) ^ f.exp

/-- JS `parseFloat(s)` (restricted to finite decimal literals, see
`parseFloatParts`). -/
def parseFloatJS (s : String) : Option ℚ :=
  (parseFloatParts s).map ratOfParts

/-! ## String-keyed maps (JS objects) as association lists -/

/-- Lookup in a JS-object-as-map. -/
def lookupS {α : Type} : List (String × α) → String → Option α
  | [], _ => none
  | (k, v) :: rest, key => if k = key then some v else lookupS rest key

/-- JS property assignment `m[key] = v`: overwrite in place if the key
exists, otherwise append (insertion order is preserved). -/
def insertS {α : Type} : List (String × α) → String → α → List (String × α)
  | [], key, v => [(key, v)]
  | (k, w) :: rest, key, v =>
    if k = key then (k, v) :: rest else (k, w) :: insertS rest key v

/-- JS `delete m[key]`. -/
def eraseS {α : Type} : List (String × α) → String → List (String × α)
  | [], _ => []
  | (k, w) :: rest, key =>
    if k = key then eraseS rest key else (k, w) :: eraseS rest key

/-! ## Data model (src/lib/parser.ts) -/

/-- A typed value produced by `castToType`. -/
inductive Value : Type where
  | str (s : String)
  | int (n : Int)
  | float (q : ℚ)
  | bool (b : Bool)
deriving DecidableEq

/-- `FatalError` from src/lib/error.ts (the only error class of the
program; its `message` is the constructor argument). -/
structure FatalError : Type where
  message : String
deriving DecidableEq

/-- `IPattern`: one compiled positional-parameter slot. -/
structure IPattern : Type where
  name : String
  required : Bool
deriving DecidableEq

/-- `IRegistryItem`: the stored specification of a registered argument,
flag, or parameter.  The `description` field of the source is carried by
registration options but never read by the engine, so it is omitted;
`type` is kept as the raw string it is at runtime (options records are
string-valued). -/
structure IRegistryItem : Type where
  shortHand : Option String := none
  type : String := "string"
  validate : Option (Value → Bool) := none

/-- The `Parser` class state: the compiled pattern and the three
registries, each in registration (JS object insertion) order. -/
structure Parser : Type where
  pattern : List IPattern := []
  arguments : List (String × IRegistryItem) := []
  parameters : List (String × IRegistryItem) := []
  flags : List (String × IRegistryItem) := []

/-- Registration options (`opts`): the caller may override the default
`type` and attach a validator; other fields (description) are inert. -/
structure RegOpts : Type where
  type : Option String := none
  validate : Option (Value → Bool) := none

/-! ## Pattern compilation (the `Parser` constructor) -/

/-- The parameter tokens of the pattern, walked left to right carrying the
"optional parameter found" flag; a required parameter after an optional
one throws. -/
def compilePatternAux : Bool → List String → Except FatalError (List IPattern)
  | _, [] => .ok []
  | optionalParamFound, tok :: rest =>
    let parsedParam := jsReplaceRemove (jsReplaceRemove tok '<') '>'
    if containsChar parsedParam.data '?' then
      match compilePatternAux true rest with
      | .error e => .error e
      | .ok tail => .ok ({ name := jsReplaceRemove parsedParam '?', required := false } :: tail)
    else
      if optionalParamFound then
        .error ⟨"required parameter cannot be after optional parameter"⟩
      else
        match compilePatternAux optionalParamFound rest with
        | .error e => .error e
        | .ok tail => .ok ({ name := parsedParam, required := true } :: tail)

/-- `new Parser(p)`: split the pattern on spaces; if more than one token,
compile everything after the command name into the ordered parameter
sequence, otherwise the sequence is empty. -/
def Parser.mkParser (p : String) : Except FatalError Parser :=
  let pattern := jsSplit p ' '
  if pattern.length > 1 then
    match compilePatternAux false (pattern.drop 1) with
    | .error e => .error e
    | .ok pats => .ok { pattern := pats }
  else
    .ok {}

/-! ## Registration -/

/-- `[longHand, shortHand].filter(Boolean)`: drop the absent short hand
and any empty string (the only falsy string). -/
def regIds (longHand : String) (shortHand : Option String) : List String :=
  (([some longHand, shortHand]).filterMap fun x => x).filter fun s => s ≠ ""

/-- The inner check of `_assertNotAlreadyRegistered` for one identifier:
the `['argument', 'flag']` loop looks the identifier up among the **keys**
of the argument registry and then of the flag registry; a hit throws. -/
def checkIdentifier (p : Parser) (i : String) : Except FatalError Unit :=
  if (lookupS p.arguments i).isSome then
    .error ⟨"argument with identifier " ++ i ++ " already exists"⟩
  else if (lookupS p.flags i).isSome then
    .error ⟨"flag with identifier " ++ i ++ " already exists"⟩
  else
    .ok ()

/-- `Parser._assertNotAlreadyRegistered`: each supplied truthy identifier
is checked in order.  (Note that only registry keys — long names — are
consulted; stored short hands are item fields, not keys.) -/
def Parser.assertNotAlreadyRegistered (p : Parser) (longHand : String)
    (shortHand : Option String) : Except FatalError Unit :=
  (regIds longHand shortHand).forM (checkIdentifier p)

/-- The shared identifier handling of `argument` and `flag`: split the
identifier on `|` into `[longHand, shortHand]` (JS array destructuring of
`name.split('|')`) and run `_assertNotAlreadyRegistered` on the pair. -/
def Parser.registerIdent (p : Parser) (name : String) :
    Except FatalError (String × Option String) :=
  let parts := jsSplit name '|'
  let longHand := parts.headD ""
  let shortHand := parts[1]?
  match p.assertNotAlreadyRegistered longHand shortHand with
  | .error e => .error e
  | .ok _ => .ok (longHand, shortHand)

/-- `Parser.argument(name, opts)`: check the identifier, then store the
item (default type `string`, caller options merged) under the long name. -/
def Parser.argument (p : Parser) (name : String) (opts : RegOpts) :
    Except FatalError Parser :=
  if name = "" then .error ⟨"no name found in argument registration"⟩
  else
    (p.registerIdent name).map fun ls =>
      let item : IRegistryItem :=
        { shortHand := ls.2, type := opts.type.getD "string",
          validate := opts.validate }
      { p with arguments := insertS p.arguments ls.1 item }

/-- `Parser.flag(name, opts)`: same identifier handling as `argument`,
stored in the flag registry. -/
def Parser.flag (p : Parser) (name : String) (opts : RegOpts) :
    Except FatalError Parser :=
  if name = "" then .error ⟨"no name found in flag registration"⟩
  else
    (p.registerIdent name).map fun ls =>
      let item : IRegistryItem :=
        { shortHand := ls.2, type := opts.type.getD "string",
          validate := opts.validate }
      { p with flags := insertS p.flags ls.1 item }

/-- `Parser.parameter(name, opts)`: the name must occur in the compiled
pattern and must not already be registered. -/
def Parser.parameter (p : Parser) (name : String) (opts : RegOpts) :
    Except FatalError Parser :=
  if name = "" then .error ⟨"no name found in parameter registration"⟩
  else
    if (p.pattern.filter fun pa => pa.name = name).length > 0 then
      if (lookupS p.parameters name).isSome then
        .error ⟨name ++ " is already a registered parameter"⟩
      else
        let item : IRegistryItem :=
          { type := opts.type.getD "string", validate := opts.validate }
        .ok { p with parameters := insertS p.parameters name item }
    else
      .error ⟨name ++ " was not specified in pattern"⟩

/-! ## Type casting (`Parser.castToType`) -/

/-- `Parser.castToType(value, type)`.  A falsy (empty) type name is
replaced by `'string'` before dispatch; `string` casting of a string is
the identity (its `try`/`catch` is unreachable for string input); `int`
and `float` use `parseInt`/`parseFloat` and throw on `NaN`; `boolean`
compares the lower-cased, trimmed value against the true-literals and
never throws; any other type name throws. -/
def castToType (value : String) (type0 : String) : Except FatalError Value :=
  let t := if type0 = "" then "string" else type0
  if t = "string" then .ok (.str value)
  else if t = "int" then
    match parseIntJS value with
    | some n => .ok (.int n)
    | none => .error ⟨value ++ " is not of type int"⟩
  else if t = "float" then
    match parseFloatJS value with
    | some q => .ok (.float q)
    | none => .error ⟨value ++ " is not of type float"⟩
  else if t = "boolean" then
    .ok (.bool (jsTrim (jsToLower value) = "true" || jsTrim (jsToLower value) = "t"
      || jsTrim value = "1"))
  else
    .error ⟨"invalid type received: " ++ t⟩

/-! ## Phase A — argument extraction (`Parser.parseArguments`) -/

/-- The two searched token forms of an argument,
`` [`--${arg}`, `-${shortHand}`].filter(Boolean) ``: an absent short hand
interpolates as the literal `undefined`, and the filter can only drop an
empty string (which neither form ever is). -/
def searchForms (longHand : String) (shortHand : Option String) : List String :=
  (["--" ++ longHand, "-" ++ jsInterp shortHand]).filter fun s => s ≠ ""

/-- Processing of one searched token form for one registered argument
against the current stream/parsed-map state: if the form is absent the
state is unchanged; otherwise the next token is the value (its absence
throws), it is cast to the argument's type, an attached validator is
consulted, and on success the value is recorded under the long name and
the two tokens are spliced out. -/
def parseArgStep (item : IRegistryItem) (longHand : String) (tok : String)
    (st : List String × List (String × Value)) :
    Except FatalError (List String × List (String × Value)) :=
  match jsIndexOf st.1 tok with
  | none => .ok st
  | some index =>
    match st.1[index + 1]? with
    | none => .error ⟨"no value passed to " ++ tok⟩
    | some v =>
      match castToType v item.type with
      | .error e => .error e
      | .ok castedValue =>
        match item.validate with
        | some f =>
          if f castedValue then
            .ok (jsSplice st.1 index 2, insertS st.2 longHand castedValue)
          else
            .error ⟨longHand ++ " failed validation"⟩
        | none =>
          .ok (jsSplice st.1 index 2, insertS st.2 longHand castedValue)

/-- Processing of one registered argument: both searched forms in order
(the second search sees the stream already reduced by the first). -/
def parseArgOne (longHand : String) (item : IRegistryItem)
    (st : List String × List (String × Value)) :
    Except FatalError (List String × List (String × Value)) :=
  (searchForms longHand item.shortHand).foldlM
    (fun s t => parseArgStep item longHand t s) st

/-- `Parser.parseArguments(args)`: fold the per-argument processing over
the registry in registration order; returns the reduced stream (the
source mutates `args` in place) together with the parsed-arguments map. -/
def Parser.parseArguments (p : Parser) (args : List String) :
    Except FatalError (List String × List (String × Value)) :=
  p.arguments.foldlM (fun st kv => parseArgOne kv.1 kv.2 st) (args, [])

/-! ## Phase B — flag extraction (`Parser.parseFlags`) -/

/-- The two searched token forms of a flag, `` [`--${flag}`, `-${shortHand}`] ``
(no `filter(Boolean)` here in the source). -/
def flagForms (longHand : String) (shortHand : Option String) : List String :=
  ["--" ++ longHand, "-" ++ jsInterp shortHand]

/-- Processing of one searched token form for one flag: a hit deletes the
key named like the token, records `true`, and splices the token out; a
miss deletes that key and records `false`.  (The `delete parsed[name]` on
the token-shaped key is in the source.) -/
def parseFlagStep (flagName : String) (tok : String)
    (st : List String × List (String × Bool)) :
    List String × List (String × Bool) :=
  match jsIndexOf st.1 tok with
  | some index =>
    (jsSplice st.1 index 1, insertS (eraseS st.2 tok) flagName true)
  | none =>
    (st.1, insertS (eraseS st.2 tok) flagName false)

/-- Processing of one registered flag: both searched forms in order. -/
def parseFlagOne (flagName : String) (item : IRegistryItem)
    (st : List String × List (String × Bool)) :
    List String × List (String × Bool) :=
  (flagForms flagName item.shortHand).foldl
    (fun s t => parseFlagStep flagName t s) st

/-- `Parser.parseFlags(args)`: fold the per-flag processing over the flag
registry in registration order; never throws.  Returns the reduced stream
and the parsed-flags map. -/
def Parser.parseFlags (p : Parser) (args : List String) :
    List String × List (String × Bool) :=
  p.flags.foldl (fun st kv => parseFlagOne kv.1 kv.2 st) (args, [])

/-! ## Phase C — parameter extraction (`Parser.parseParameters`) -/

/-- Processing of the pattern slot at position `i`: a token at that
position is cast with the registered parameter's type and recorded (an
unregistered name throws); a missing token throws when the slot is
required and is skipped otherwise. -/
def parseParamSlot (p : Parser) (args : List String) (pat : IPattern) (i : Nat)
    (parsed : List (String × Value)) : Except FatalError (List (String × Value)) :=
  match args[i]? with
  | some tok =>
    match lookupS p.parameters pat.name with
    | some item =>
      match castToType tok item.type with
      | .error e => .error e
      | .ok castedValue => .ok (insertS parsed pat.name castedValue)
    | none => .error ⟨pat.name ++ " is not a registered parameters"⟩
  | none =>
    if pat.required then .error ⟨pat.name ++ " is required"⟩
    else .ok parsed

/-- Walk the pattern slots in order starting at position `i`. -/
def parseParamsAux (p : Parser) (args : List String) :
    Nat → List IPattern → List (String × Value) →
    Except FatalError (List (String × Value))
  | _, [], parsed => .ok parsed
  | i, pat :: rest, parsed =>
    match parseParamSlot p args pat i parsed with
    | .error e => .error e
    | .ok parsed2 => parseParamsAux p args (i + 1) rest parsed2

/-- `Parser.parseParameters(args)`: more leftover tokens than declared
slots is an invalid command structure; otherwise walk the pattern
positions in order. -/
def Parser.parseParameters (p : Parser) (args : List String) :
    Except FatalError (List (String × Value)) :=
  if args.length > p.pattern.length then
    .error ⟨"invalid command structure - expected " ++ toString p.pattern.length
      ++ " parameters, but found " ++ toString args.length⟩
  else
    parseParamsAux p args 0 p.pattern []

/-! ## `Parser.parse` and the execution pipeline (`Command.execute`) -/

/-- The parsed result stored on `ctx.arguments` by `Parser.parse`. -/
structure ParsedResult : Type where
  arguments : List (String × Value)
  flags : List (String × Bool)
  parameters : List (String × Value)
deriving DecidableEq

/-- `Parser.parse(ctx)` on a context that has `args`: the three phases
run in order, each on the stream left by the previous one.  (On a context
without `args` the source throws `no args found in context - Parser:parse`;
the embedding takes the token stream directly.) -/
def Parser.parse (p : Parser) (args : List String) :
    Except FatalError ParsedResult :=
  match p.parseArguments args with
  | .error e => .error e
  | .ok st1 =>
    let st2 := p.parseFlags st1.1
    match p.parseParameters st2.1 with
    | .error e => .error e
    | .ok parsedParams => .ok ⟨st1.2, st2.2, parsedParams⟩

/-- `Command.execute(ctx)`: parse synchronously (a throw is caught,
reported and aborts the process — the `.error` result), then
`before(parsed).then(main).then(after)`.  Each hook yields a settled
promise (execution is single-threaded and sequential); `.then` on a
rejected promise skips its callback, which is exactly `Except.bind`. -/
def executeCmd {Ctx : Type} (parse0 before0 main0 after0 : Ctx → Except FatalError Ctx)
    (ctx : Ctx) : Except FatalError Ctx :=
  match parse0 ctx with
  | .error e => .error e
  | .ok parsed => ((before0 parsed).bind main0).bind after0

/-- Head-character test used to state which registry names are safe from
the extractor's `delete parsed[tokenForm]` cleanup (every searched token
form starts with `-`). -/
def headIsDash (s : String) : Bool :=
  match s.data with
  | [] => false
  | c :: _ => c = '-'

/-- A concrete registry: pattern `<cmd> <a?>` with parameter `a`,
argument `foo`, and flag `x|y`. -/
def c8Parser : Parser where
  pattern := [⟨"a", false⟩]
  arguments := [("foo", {})]
  parameters := [("a", {})]
  flags := [("x", { shortHand := some "y" })]

/-! ## General-purpose lemmas -/

theorem exceptBindErr {E A B : Type} (e : E) (f : A → Except E B) :
    (Except.error e >>= f) = Except.error e := rfl

theorem exceptBindOk {E A B : Type} (a : A) (f : A → Except E B) :
    (Except.ok a >>= f) = f a := rfl

theorem isOkError {E A : Type} (e : E) : (Except.error e : Except E A).isOk = false := rfl

theorem isOkOk {E A : Type} (a : A) : (Except.ok a : Except E A).isOk = true := rfl

theorem removeFirst_containsChar {c d : Char} (hcd : c ≠ d) (l : List Char) :
    containsChar (removeFirst c l) d = containsChar l d := by
  induction l with
  | nil => rfl
  | cons x xs ih =>
    by_cases hx : x = c
    · subst hx
      simp [removeFirst, containsChar]
      intro h
      exact absurd h hcd
    · simp [removeFirst, hx, containsChar, ih]

/-- Removing the angle brackets neither adds nor removes a `?`. -/
theorem containsChar_param (tok : String) :
    containsChar (jsReplaceRemove (jsReplaceRemove tok '<') '>').data '?'
      = containsChar tok.data '?' := by
  show containsChar (removeFirst '>' (removeFirst '<' tok.data)) '?' = _
  rw [removeFirst_containsChar (by decide), removeFirst_containsChar (by decide)]

/-- Once the optional flag is set, any later token without a `?` makes
compilation fail. -/
theorem compilePatternAux_error_of_mem (toks : List String) (t : String)
    (ht : t ∈ toks) (hq : containsChar t.data '?' = false) :
    compilePatternAux true toks
      = .error ⟨"required parameter cannot be after optional parameter"⟩ := by
  induction toks with
  | nil => cases ht
  | cons x rest ih =>
    by_cases hx : containsChar (jsReplaceRemove (jsReplaceRemove x '<') '>').data '?' = true
    · have hxq : containsChar x.data '?' = true := by rw [containsChar_param] at hx; exact hx
      have htr : t ∈ rest := by
        cases ht with
        | head => rw [hq] at hxq; cases hxq
        | tail _ h => exact h
      simp [compilePatternAux, hx, ih htr]
    · simp [compilePatternAux, hx]

/-- A required token anywhere after an optional token makes compilation
fail. -/
theorem compilePatternAux_required_after_optional (l1 : List String) (t1 : String)
    (l2 : List String) (t2 : String) (l3 : List String)
    (h1 : containsChar t1.data '?' = true) (h2 : containsChar t2.data '?' = false) :
    compilePatternAux false (l1 ++ t1 :: (l2 ++ t2 :: l3))
      = .error ⟨"required parameter cannot be after optional parameter"⟩ := by
  induction l1 with
  | nil =>
    have hx : containsChar (jsReplaceRemove (jsReplaceRemove t1 '<') '>').data '?' = true := by
      rw [containsChar_param]; exact h1
    have herr := compilePatternAux_error_of_mem (l2 ++ t2 :: l3) t2 (by simp) h2
    simp [compilePatternAux, hx, herr]
  | cons x rest ih =>
    by_cases hx : containsChar (jsReplaceRemove (jsReplaceRemove x '<') '>').data '?' = true
    · have herr := compilePatternAux_error_of_mem (rest ++ t1 :: (l2 ++ t2 :: l3)) t2
        (by simp) h2
      simp [compilePatternAux, hx, herr]
    · simp [compilePatternAux, hx, ih]

/-- The identifier check succeeds exactly when no supplied truthy
identifier is a key of either registry. -/
theorem forM_checkIdentifier_isOk_iff (p : Parser) (l : List String) :
    (l.forM (checkIdentifier p)).isOk = true ↔
      ∀ i ∈ l, lookupS p.arguments i = none ∧ lookupS p.flags i = none := by
  induction l with
  | nil => simp [List.forM, isOkOk, pure, Except.pure]
  | cons x xs ih =>
    by_cases ha : (lookupS p.arguments x).isSome = true
    · have ha2 : ¬ lookupS p.arguments x = none := by
        intro h; rw [h] at ha; cases ha
      simp [List.forM, checkIdentifier, ha, exceptBindErr, isOkError, ha2]
    · by_cases hf : (lookupS p.flags x).isSome = true
      · have hf2 : ¬ lookupS p.flags x = none := by
          intro h; rw [h] at hf; cases hf
        simp [List.forM, checkIdentifier, ha, hf, exceptBindErr, isOkError, hf2]
      · have ha2 : lookupS p.arguments x = none := by
          cases h : lookupS p.arguments x with
          | none => rfl
          | some v => rw [h] at ha; cases ha rfl
        have hf2 : lookupS p.flags x = none := by
          cases h : lookupS p.flags x with
          | none => rfl
          | some v => rw [h] at hf; cases hf rfl
        simp [List.forM, checkIdentifier, ha, hf, exceptBindOk, ih, ha2, hf2]

/-- `registerIdent` (the shared body of `argument` and `flag`) succeeds
exactly when no supplied truthy identifier is a key of either registry. -/
theorem registerIdentAux_isOk_iff (p : Parser) (L : String) (S : Option String) :
    (match p.assertNotAlreadyRegistered L S with
      | .error e => (.error e : Except FatalError (String × Option String))
      | .ok _ => .ok (L, S)).isOk = true ↔
      ∀ i ∈ regIds L S, lookupS p.arguments i = none ∧ lookupS p.flags i = none := by
  have hiff := forM_checkIdentifier_isOk_iff p (regIds L S)
  rw [show (regIds L S).forM (checkIdentifier p) = p.assertNotAlreadyRegistered L S from rfl]
    at hiff
  cases h : p.assertNotAlreadyRegistered L S with
  | error e =>
    rw [h] at hiff
    exact hiff
  | ok u =>
    rw [h] at hiff
    exact hiff

theorem registerIdent_isOk_iff (p : Parser) (name : String) :
    (p.registerIdent name).isOk = true ↔
      ∀ i ∈ regIds ((jsSplit name '|').headD "") (jsSplit name '|')[1]?,
        lookupS p.arguments i = none ∧ lookupS p.flags i = none :=
  registerIdentAux_isOk_iff p ((jsSplit name '|').headD "") (jsSplit name '|')[1]?

theorem mapIsOk {E A B : Type} (f : A → B) (x : Except E A) :
    (x.map f).isOk = x.isOk := by
  cases x <;> rfl

theorem isWhitespace_eq_false_of_isDigit {d : Char} (h : d.isDigit = true) :
    d.isWhitespace = false := by
  revert h
  simp [Char.isDigit, Char.isWhitespace]
  intro h1 h2
  refine ⟨⟨⟨?_, ?_⟩, ?_⟩, ?_⟩ <;>
    · intro he; subst he; exact absurd h1 (by decide)

/-! ## Claim C5 — pattern compilation -/

/-- C5: compiling `"<cmd> <a> <b?>"` yields exactly the two parameters
`a` (required) and `b` (optional) in order; every pattern in which a
parameter without the `?` suffix appears after one with the `?` suffix
fails with the configuration error "required parameter cannot be after
optional parameter" (the program's `FatalError`); a pattern containing
only the command name yields an empty parameter sequence. -/
theorem C5_pattern_compilation :
    ((Parser.mkParser "<cmd> <a> <b?>").map (fun p => p.pattern)
        = .ok [⟨"a", true⟩, ⟨"b", false⟩]) ∧
    ((Parser.mkParser "<cmd> <a?> <b>").map (fun p => p.pattern)
        = .error ⟨"required parameter cannot be after optional parameter"⟩) ∧
    (∀ (l1 : List String) (t1 : String) (l2 : List String) (t2 : String) (l3 : List String),
      containsChar t1.data '?' = true → containsChar t2.data '?' = false →
      compilePatternAux false (l1 ++ t1 :: (l2 ++ t2 :: l3))
        = .error ⟨"required parameter cannot be after optional parameter"⟩) ∧
    (∀ q : String, (jsSplit q ' ').length ≤ 1 →
      (Parser.mkParser q).map (fun p => p.pattern) = .ok []) := by
  refine ⟨by decide, by decide, compilePatternAux_required_after_optional, ?_⟩
  intro q hq
  have hnot : ¬ (jsSplit q ' ').length > 1 := by omega
  simp [Parser.mkParser, hnot, Except.map]

/-- Witness for C5: the general clauses evaluated at the pattern tokens
`a?`, `b` and at the pattern `"<cmd>"`. -/
theorem C5_witness :
    (containsChar "a?".data '?' = true) ∧ (containsChar "b".data '?' = false) ∧
    (compilePatternAux false ([] ++ "a?" :: ([] ++ "b" :: []))
      = .error ⟨"required parameter cannot be after optional parameter"⟩) ∧
    ((jsSplit "<cmd>" ' ').length ≤ 1) ∧
    ((Parser.mkParser "<cmd>").map (fun p => p.pattern) = .ok []) :=
  ⟨by decide, by decide,
    C5_pattern_compilation.2.2.1 [] "a?" [] "b" [] (by decide) (by decide),
    by decide,
    C5_pattern_compilation.2.2.2 "<cmd>" (by decide)⟩

/-! ## Claim C6 — type casting -/

/-- C6 counterexample: the claim says every type name outside
`{string, int, float, boolean}` fails with a configuration error, but the
empty type name is outside that set and `castToType` succeeds on it (the
source's falsy-type default replaces it by `string`). -/
theorem C6_counterexample :
    castToType "x" "" = .ok (.str "x") ∧
    ¬ ("" ∈ (["string", "int", "float", "boolean"] : List String)) :=
  ⟨by decide, by decide⟩

/-- C6 (amended): `cast("5","int") = 5`; `cast("abc","int")` fails with
the type error naming the value and target type; `cast("3.14","float") =
3.14`; boolean casting is case-insensitive and trimmed, the literals
`true`/`t`/`1` yield `true` and every other string yields `false` without
ever failing; and every **nonempty** type name outside
`{string, int, float, boolean}` fails with "invalid type received" — the
empty (falsy) type name instead defaults to `string`. -/
theorem C6_castToType :
    (castToType "5" "int" = .ok (.int 5)) ∧
    (castToType "abc" "int" = .error ⟨"abc is not of type int"⟩) ∧
    (castToType "3.14" "float" = .ok (.float (157 / 50))) ∧
    (∀ v : String, castToType v "boolean"
        = .ok (.bool (jsTrim (jsToLower v) = "true" || jsTrim (jsToLower v) = "t"
            || jsTrim v = "1"))) ∧
    (castToType "T" "boolean" = .ok (.bool true)) ∧
    (castToType "  TRUE " "boolean" = .ok (.bool true)) ∧
    (castToType " 1 " "boolean" = .ok (.bool true)) ∧
    (castToType "no" "boolean" = .ok (.bool false)) ∧
    (castToType "" "boolean" = .ok (.bool false)) ∧
    (∀ (v t : String), t ≠ "" → t ≠ "string" → t ≠ "int" → t ≠ "float" → t ≠ "boolean" →
      castToType v t = .error ⟨"invalid type received: " ++ t⟩) := by
  refine ⟨by decide, by decide, ?_, ?_, by decide, by decide, by decide, by decide,
    by decide, ?_⟩
  · have h : parseFloatParts "3.14" = some ⟨1, 3, 14, 2, 0⟩ := by decide
    simp [castToType, parseFloatJS, h, ratOfParts]
    norm_num
  · intro v
    simp [castToType]
  · intro v t h0 hs hi hf hb
    simp [castToType, h0, hs, hi, hf, hb]

/-- Witness for C6: the general clauses evaluated at the unknown type
name `number` and at the value `T`. -/
theorem C6_witness :
    (castToType "5" "number" = .error ⟨"invalid type received: number"⟩) ∧
    (castToType "T" "boolean"
      = .ok (.bool (jsTrim (jsToLower "T") = "true" || jsTrim (jsToLower "T") = "t"
          || jsTrim "T" = "1"))) :=
  ⟨C6_castToType.2.2.2.2.2.2.2.2.2 "5" "number" (by decide) (by decide) (by decide)
      (by decide) (by decide),
    C6_castToType.2.2.2.1 "T"⟩

/-! ## Claim C10 — numeric-prefix casting -/

/-- C10: `int`/`float` casting accepts any string whose leading characters
form a number and silently drops the rest (`parseInt`/`parseFloat`
semantics): `cast("3.14","int") = 3` and `cast("5abc","int") = 5` without
error; the not-a-number failure occurs exactly when `parseInt` finds no
numeric prefix, and any string starting with a nonzero decimal digit
always casts to the value of its digit prefix. -/
theorem C10_parseInt_semantics :
    (castToType "3.14" "int" = .ok (.int 3)) ∧
    (castToType "5abc" "int" = .ok (.int 5)) ∧
    (castToType "3.14abc" "float" = .ok (.float (157 / 50))) ∧
    (∀ v : String, (∃ e, castToType v "int" = .error e) ↔ parseIntJS v = none) ∧
    (∀ (d : Char) (s : List Char), d.isDigit = true → d ≠ '0' →
      castToType ⟨d :: s⟩ "int"
        = .ok (.int (digitsToNat ((d :: s).takeWhile Char.isDigit)))) := by
  refine ⟨by decide, by decide, ?_, ?_, ?_⟩
  · have h : parseFloatParts "3.14abc" = some ⟨1, 3, 14, 2, 0⟩ := by decide
    simp [castToType, parseFloatJS, h, ratOfParts]
    norm_num
  · intro v
    cases h : parseIntJS v with
    | none => simp [castToType, h]
    | some n => simp [castToType, h]
  · intro d s hd h0
    have hws : d.isWhitespace = false := isWhitespace_eq_false_of_isDigit hd
    have hminus : d ≠ '-' := by intro he; subst he; simp [Char.isDigit] at hd
    have hplus : d ≠ '+' := by intro he; subst he; simp [Char.isDigit] at hd
    have hdata : (⟨d :: s⟩ : String).data = d :: s := rfl
    simp [castToType, parseIntJS, hdata, hws, jsSign, hminus, hplus, h0,
      List.takeWhile_cons, hd]

/-- Witness for C10: the general clauses evaluated at `'7' :: "xyz"` and
at `"abc"`. -/
theorem C10_witness :
    (castToType ⟨'7' :: "xyz".data⟩ "int"
      = .ok (.int (digitsToNat (('7' :: "xyz".data).takeWhile Char.isDigit)))) ∧
    ((∃ e, castToType "abc" "int" = .error e) ↔ parseIntJS "abc" = none) :=
  ⟨C10_parseInt_semantics.2.2.2.2 '7' "xyz".data (by decide) (by decide),
    C10_parseInt_semantics.2.2.2.1 "abc"⟩

/-! ## Claim C1 — flag extraction (code bug) -/

/-- C1 (code bug): the claim says a present `--<longName>` token is
removed and the flag recorded `true`; the code does remove the token but
the subsequent miss of the short form overwrites the entry with `false`,
so a flag passed only in long form is recorded `false`.  The short form
alone is recorded `true` (it is searched second). -/
theorem C1_long_form_flag_recorded_false :
    (Parser.parseFlags { flags := [("verbose", { shortHand := some "v" })] } ["--verbose"]
      = ([], [("verbose", false)])) ∧
    (Parser.parseFlags { flags := [("verbose", {})] } ["--verbose"]
      = ([], [("verbose", false)])) ∧
    (Parser.parseFlags { flags := [("verbose", { shortHand := some "v" })] } ["-v"]
      = ([], [("verbose", true)])) :=
  ⟨by decide, by decide, by decide⟩

/-! ## Claim C2 — registration uniqueness -/

/-- C2 counterexample: after registering argument `foo|f`, the claim says
registering flag `bar|f` fails (short-name collision); the code succeeds,
because only registry keys (long names) are consulted. -/
theorem C2_counterexample :
    (((Parser.mkParser "<cmd>").bind (fun p => p.argument "foo|f" {})).bind
        (fun p => p.flag "bar|f" {})).isOk = true := by
  decide

/-- C2 (amended): registering an argument or flag fails exactly when its
longName or its (truthy) shortName already exists **as a longName** (a
registry key) in the argument or flag namespace of the same command;
stored shortNames are not consulted.  In particular `foo|f` then flag
`foo` fails with the collision error, while `foo|f` then flag `bar|f`
succeeds. -/
theorem C2_registration_uniqueness :
    (∀ (p : Parser) (name : String) (opts : RegOpts), name ≠ "" →
      ((p.argument name opts).isOk = true ↔
        ∀ i ∈ regIds ((jsSplit name '|').headD "") (jsSplit name '|')[1]?,
          lookupS p.arguments i = none ∧ lookupS p.flags i = none)) ∧
    (∀ (p : Parser) (name : String) (opts : RegOpts), name ≠ "" →
      ((p.flag name opts).isOk = true ↔
        ∀ i ∈ regIds ((jsSplit name '|').headD "") (jsSplit name '|')[1]?,
          lookupS p.arguments i = none ∧ lookupS p.flags i = none)) ∧
    (((Parser.mkParser "<cmd>").bind (fun p => p.argument "foo|f" {})).bind
        (fun p => p.flag "foo" {})
      = .error ⟨"argument with identifier foo already exists"⟩) ∧
    ((((Parser.mkParser "<cmd>").bind (fun p => p.argument "foo|f" {})).bind
        (fun p => p.flag "bar|f" {})).isOk = true) := by
  refine ⟨?_, ?_, rfl, by decide⟩
  · intro p name opts hname
    rw [show (p.argument name opts).isOk
        = ((p.registerIdent name).map fun ls =>
            let item : IRegistryItem :=
              { shortHand := ls.2, type := opts.type.getD "string",
                validate := opts.validate }
            { p with arguments := insertS p.arguments ls.1 item }).isOk
      from by simp [Parser.argument, hname]]
    rw [mapIsOk]
    exact registerIdent_isOk_iff p name
  · intro p name opts hname
    rw [show (p.flag name opts).isOk
        = ((p.registerIdent name).map fun ls =>
            let item : IRegistryItem :=
              { shortHand := ls.2, type := opts.type.getD "string",
                validate := opts.validate }
            { p with flags := insertS p.flags ls.1 item }).isOk
      from by simp [Parser.flag, hname]]
    rw [mapIsOk]
    exact registerIdent_isOk_iff p name

/-- Witness for C2: registering `x|y` on an empty parser succeeds, via
the amended equivalence. -/
theorem C2_witness :
    (Parser.argument {} "x|y" ({} : RegOpts)).isOk = true :=
  (C2_registration_uniqueness.1 {} "x|y" {} (by decide)).mpr
    (fun i _ => ⟨rfl, rfl⟩)

/-! ## Claim C9 — the `-undefined` search form -/

theorem dashDashNeEmpty (long : String) : ("--" ++ long) ≠ "" := by
  intro h
  have hd := congrArg String.data h
  rw [String.data_append] at hd
  exact List.noConfusion (show '-' :: '-' :: long.data = [] from hd)

theorem dashNeEmpty (s : String) : ("-" ++ s) ≠ "" := by
  intro h
  have hd := congrArg String.data h
  rw [String.data_append] at hd
  exact List.noConfusion (show '-' :: s.data = [] from hd)

/-- C9: for an argument or flag registered without a short name, the two
searched token forms are the literal strings `--<longName>` and
`-undefined` (the absent short hand is interpolated, and `filter(Boolean)`
keeps the non-empty string), so a user token literally equal to
`-undefined` is matched and consumed as that argument's or flag's
identifier token. -/
theorem C9_undefined_short_form :
    (∀ long : String, searchForms long none = ["--" ++ long, "-undefined"]) ∧
    (∀ long : String, flagForms long none = ["--" ++ long, "-undefined"]) ∧
    (Parser.parseFlags { flags := [("x", {})] } ["-undefined"] = ([], [("x", true)])) ∧
    (Parser.parseArguments { arguments := [("foo", {})] } ["-undefined", "bar"]
      = .ok ([], [("foo", .str "bar")])) := by
  refine ⟨?_, ?_, by decide, by decide⟩
  · intro long
    simp [searchForms, jsInterp, List.filter, dashDashNeEmpty long, dashNeEmpty "undefined"]
  · intro long
    simp [flagForms, jsInterp]

/-! ## Claim C7 — pipeline ordering -/

/-- C7: a parse failure reaches the aborted state with a result that does
not depend on (and therefore never invokes) any of the three hooks; a
successful parse feeds the parsed context to `before`, whose resolution
feeds `main`, whose resolution feeds `after`, in exactly that order; a
`before` that fails makes the result independent of `main` and `after`
(they never run). -/
theorem C7_pipeline_ordering :
    (∀ (Ctx : Type) (pf b m a b2 m2 a2 : Ctx → Except FatalError Ctx) (ctx : Ctx)
        (e : FatalError), pf ctx = .error e →
      executeCmd pf b m a ctx = .error e ∧
      executeCmd pf b m a ctx = executeCmd pf b2 m2 a2 ctx) ∧
    (∀ (Ctx : Type) (pf b m a : Ctx → Except FatalError Ctx) (ctx p : Ctx),
      pf ctx = .ok p →
      executeCmd pf b m a ctx = ((b p).bind m).bind a) ∧
    (∀ (Ctx : Type) (pf b m m2 a a2 : Ctx → Except FatalError Ctx) (ctx p : Ctx)
        (e : FatalError), pf ctx = .ok p → b p = .error e →
      executeCmd pf b m a ctx = .error e ∧
      executeCmd pf b m a ctx = executeCmd pf b m2 a2 ctx) ∧
    (∀ (Ctx : Type) (pf b m a : Ctx → Except FatalError Ctx) (ctx p c1 c2 c3 : Ctx),
      pf ctx = .ok p → b p = .ok c1 → m c1 = .ok c2 → a c2 = .ok c3 →
      executeCmd pf b m a ctx = .ok c3) := by
  refine ⟨?_, ?_, ?_, ?_⟩
  · intro Ctx pf b m a b2 m2 a2 ctx e h
    constructor <;> simp [executeCmd, h]
  · intro Ctx pf b m a ctx p h
    simp [executeCmd, h]
  · intro Ctx pf b m m2 a a2 ctx p e h hb
    constructor <;> simp [executeCmd, h, hb, Except.bind]
  · intro Ctx pf b m a ctx p c1 c2 c3 h hb hm ha
    simp [executeCmd, h, hb, hm, ha, Except.bind]

/-- Witness for C7: concrete pipelines over `Nat` contexts. -/
theorem C7_witness :
    (let pf : Nat → Except FatalError Nat := fun _ => .error ⟨"parse failure"⟩
     let hook : Nat → Except FatalError Nat := fun n => .ok (n + 1)
     executeCmd pf hook hook hook 0 = .error ⟨"parse failure"⟩) ∧
    (let pf : Nat → Except FatalError Nat := fun n => .ok (n + 1)
     let bad : Nat → Except FatalError Nat := fun _ => .error ⟨"before failed"⟩
     let hook : Nat → Except FatalError Nat := fun n => .ok (n * 10)
     executeCmd pf bad hook hook 0 = .error ⟨"before failed"⟩) ∧
    (let pf : Nat → Except FatalError Nat := fun n => .ok (n + 1)
     let hook : Nat → Except FatalError Nat := fun n => .ok (n * 10)
     executeCmd pf hook hook hook 0 = .ok 1000) :=
  ⟨(C7_pipeline_ordering.1 Nat (fun _ => .error ⟨"parse failure"⟩)
      (fun n => .ok (n + 1)) (fun n => .ok (n + 1)) (fun n => .ok (n + 1))
      (fun n => .ok (n + 1)) (fun n => .ok (n + 1)) (fun n => .ok (n + 1))
      0 ⟨"parse failure"⟩ rfl).1,
   (C7_pipeline_ordering.2.2.1 Nat (fun n => .ok (n + 1))
      (fun _ => .error ⟨"before failed"⟩) (fun n => .ok (n * 10))
      (fun n => .ok (n * 10)) (fun n => .ok (n * 10)) (fun n => .ok (n * 10))
      0 1 ⟨"before failed"⟩ rfl rfl).1,
   C7_pipeline_ordering.2.2.2 Nat (fun n => .ok (n + 1)) (fun n => .ok (n * 10))
      (fun n => .ok (n * 10)) (fun n => .ok (n * 10)) 0 1 10 100 1000 rfl rfl rfl rfl⟩

/-! ## Claim C3 — argument extraction (phase A) -/

theorem foldArgSteps_id (item : IRegistryItem) (long : String) (ts : List String)
    (st : List String × List (String × Value))
    (h : ∀ t ∈ ts, jsIndexOf st.1 t = none) :
    ts.foldlM (fun s t => parseArgStep item long t s) st = .ok st := by
  induction ts with
  | nil => rfl
  | cons x xs ih =>
    have hx := h x (by simp)
    simp [List.foldlM, parseArgStep, hx]
    exact ih (fun t ht => h t (by simp [ht]))

/-- C3: phase A is the fold of the per-form steps in registration order,
and each step behaves as the claim states: for a registered argument
whose searched token occurs at index `i`, the token at `i+1` is its value
— a missing value token fails with "no value passed", a cast failure
propagates, a validator returning false fails with "failed validation",
and on success the identifier and value tokens are spliced out and the
cast value recorded under the long name; an argument none of whose
searched tokens occur leaves the state unchanged (the long name is
omitted from the map). -/
theorem C3_argument_extraction :
    (∀ (p : Parser) (args : List String),
      p.parseArguments args
        = p.arguments.foldlM (fun st kv => parseArgOne kv.1 kv.2 st) (args, [])) ∧
    (∀ (item : IRegistryItem) (long tok : String) (stream : List String)
        (parsed : List (String × Value)) (i : Nat),
      jsIndexOf stream tok = some i → stream[i + 1]? = none →
      parseArgStep item long tok (stream, parsed)
        = .error ⟨"no value passed to " ++ tok⟩) ∧
    (∀ (item : IRegistryItem) (long tok : String) (stream : List String)
        (parsed : List (String × Value)) (i : Nat) (v : String) (e : FatalError),
      jsIndexOf stream tok = some i → stream[i + 1]? = some v →
      castToType v item.type = .error e →
      parseArgStep item long tok (stream, parsed) = .error e) ∧
    (∀ (item : IRegistryItem) (long tok : String) (stream : List String)
        (parsed : List (String × Value)) (i : Nat) (v : String) (c : Value)
        (f : Value → Bool),
      jsIndexOf stream tok = some i → stream[i + 1]? = some v →
      castToType v item.type = .ok c → item.validate = some f → f c = false →
      parseArgStep item long tok (stream, parsed)
        = .error ⟨long ++ " failed validation"⟩) ∧
    (∀ (item : IRegistryItem) (long tok : String) (stream : List String)
        (parsed : List (String × Value)) (i : Nat) (v : String) (c : Value),
      jsIndexOf stream tok = some i → stream[i + 1]? = some v →
      castToType v item.type = .ok c →
      (item.validate = none ∨ ∃ f, item.validate = some f ∧ f c = true) →
      parseArgStep item long tok (stream, parsed)
        = .ok (jsSplice stream i 2, insertS parsed long c)) ∧
    (∀ (long : String) (item : IRegistryItem)
        (st : List String × List (String × Value)),
      (∀ tok ∈ searchForms long item.shortHand, jsIndexOf st.1 tok = none) →
      parseArgOne long item st = .ok st) := by
  refine ⟨fun p args => rfl, ?_, ?_, ?_, ?_, ?_⟩
  · intro item long tok stream parsed i hidx hnone
    simp [parseArgStep, hidx, hnone]
  · intro item long tok stream parsed i v e hidx hv hcast
    simp [parseArgStep, hidx, hv, hcast]
  · intro item long tok stream parsed i v c f hidx hv hcast hval hf
    simp [parseArgStep, hidx, hv, hcast, hval, hf]
  · intro item long tok stream parsed i v c hidx hv hcast hval
    cases hval with
    | inl hnone => simp [parseArgStep, hidx, hv, hcast, hnone]
    | inr hex =>
      obtain ⟨f, hfs, hft⟩ := hex
      simp [parseArgStep, hidx, hv, hcast, hfs, hft]
  · intro long item st h
    exact foldArgSteps_id item long _ st h

/-- Witness for C3: every hypothesis-bearing clause applied at concrete
streams. -/
theorem C3_witness :
    (jsIndexOf ["--foo"] "--foo" = some 0) ∧
    ((["--foo"] : List String)[0 + 1]? = none) ∧
    (parseArgStep {} "foo" "--foo" (["--foo"], [])
      = .error ⟨"no value passed to --foo"⟩) ∧
    (castToType "abc" ({ type := "int" } : IRegistryItem).type
      = .error ⟨"abc is not of type int"⟩) ∧
    (parseArgStep { type := "int" } "foo" "--foo" (["--foo", "abc"], [])
      = .error ⟨"abc is not of type int"⟩) ∧
    (parseArgStep { validate := some fun _ => false } "foo" "--foo" (["--foo", "bar"], [])
      = .error ⟨"foo failed validation"⟩) ∧
    (parseArgStep {} "foo" "--foo" (["--foo", "bar"], [])
      = .ok (jsSplice ["--foo", "bar"] 0 2, insertS [] "foo" (.str "bar"))) ∧
    (parseArgOne "foo" {} ([], []) = .ok ([], [])) :=
  ⟨by decide, by decide,
    C3_argument_extraction.2.1 {} "foo" "--foo" ["--foo"] [] 0 (by decide) (by decide),
    by decide,
    C3_argument_extraction.2.2.1 { type := "int" } "foo" "--foo" ["--foo", "abc"] [] 0
      "abc" ⟨"abc is not of type int"⟩ (by decide) (by decide) (by decide),
    C3_argument_extraction.2.2.2.1 { validate := some fun _ => false } "foo" "--foo"
      ["--foo", "bar"] [] 0 "bar" (.str "bar") (fun _ => false) (by decide) (by decide)
      (by decide) rfl rfl,
    C3_argument_extraction.2.2.2.2.1 {} "foo" "--foo" ["--foo", "bar"] [] 0 "bar"
      (.str "bar") (by decide) (by decide) (by decide) (Or.inl rfl),
    C3_argument_extraction.2.2.2.2.2 "foo" {} ([], []) (fun t _ => rfl)⟩

/-! ## Claim C4 — parameter extraction (phase C) -/

/-- C4: too many leftover tokens fail with the "invalid command structure"
error naming the expected and found counts; otherwise the pattern slots
are walked in order, and each slot behaves as the claim states: a token
at a registered position is cast and recorded under the parameter's name,
a token at an unregistered position fails with "is not a registered
parameters", a missing token at a required slot fails with "is required",
and a missing token at an optional slot leaves the map unchanged. -/
theorem C4_parameter_extraction :
    (∀ (p : Parser) (args : List String), args.length > p.pattern.length →
      p.parseParameters args
        = .error ⟨"invalid command structure - expected " ++ toString p.pattern.length
            ++ " parameters, but found " ++ toString args.length⟩) ∧
    (∀ (p : Parser) (args : List String), args.length ≤ p.pattern.length →
      p.parseParameters args = parseParamsAux p args 0 p.pattern []) ∧
    (∀ (p : Parser) (args : List String) (pat : IPattern) (i : Nat)
        (parsed : List (String × Value)) (tok : String) (item : IRegistryItem) (c : Value),
      args[i]? = some tok → lookupS p.parameters pat.name = some item →
      castToType tok item.type = .ok c →
      parseParamSlot p args pat i parsed = .ok (insertS parsed pat.name c)) ∧
    (∀ (p : Parser) (args : List String) (pat : IPattern) (i : Nat)
        (parsed : List (String × Value)) (tok : String),
      args[i]? = some tok → lookupS p.parameters pat.name = none →
      parseParamSlot p args pat i parsed
        = .error ⟨pat.name ++ " is not a registered parameters"⟩) ∧
    (∀ (p : Parser) (args : List String) (pat : IPattern) (i : Nat)
        (parsed : List (String × Value)),
      args[i]? = none → pat.required = true →
      parseParamSlot p args pat i parsed = .error ⟨pat.name ++ " is required"⟩) ∧
    (∀ (p : Parser) (args : List String) (pat : IPattern) (i : Nat)
        (parsed : List (String × Value)),
      args[i]? = none → pat.required = false →
      parseParamSlot p args pat i parsed = .ok parsed) := by
  refine ⟨?_, ?_, ?_, ?_, ?_, ?_⟩
  · intro p args h
    simp [Parser.parseParameters, h]
  · intro p args h
    have hnot : ¬ args.length > p.pattern.length := by omega
    simp [Parser.parseParameters, hnot]
  · intro p args pat i parsed tok item c htok hitem hcast
    simp [parseParamSlot, htok, hitem, hcast]
  · intro p args pat i parsed tok htok hitem
    simp [parseParamSlot, htok, hitem]
  · intro p args pat i parsed htok hreq
    simp [parseParamSlot, htok, hreq]
  · intro p args pat i parsed htok hreq
    simp [parseParamSlot, htok, hreq]

/-- Witness for C4: every hypothesis-bearing clause applied at concrete
inputs, including the spec's overflow example. -/
theorem C4_witness :
    (((["x", "y"] : List String).length
        > ({ pattern := [⟨"a", true⟩] } : Parser).pattern.length) ∧
      Parser.parseParameters { pattern := [⟨"a", true⟩] } ["x", "y"]
        = .error ⟨"invalid command structure - expected 1 parameters, but found 2"⟩) ∧
    (parseParamSlot { parameters := [("a", {})] } ["v"] ⟨"a", true⟩ 0 []
      = .ok (insertS [] "a" (.str "v"))) ∧
    (parseParamSlot {} ["v"] ⟨"a", true⟩ 0 []
      = .error ⟨"a is not a registered parameters"⟩) ∧
    (parseParamSlot {} [] ⟨"a", true⟩ 0 [] = .error ⟨"a is required"⟩) ∧
    (parseParamSlot {} [] ⟨"a", false⟩ 0 [] = .ok []) :=
  ⟨⟨by decide, C4_parameter_extraction.1 { pattern := [⟨"a", true⟩] } ["x", "y"] (by decide)⟩,
    C4_parameter_extraction.2.2.1 { parameters := [("a", {})] } ["v"] ⟨"a", true⟩ 0 [] "v"
      {} (.str "v") (by decide) rfl (by decide),
    C4_parameter_extraction.2.2.2.1 {} ["v"] ⟨"a", true⟩ 0 [] "v" (by decide) rfl,
    C4_parameter_extraction.2.2.2.2.1 {} [] ⟨"a", true⟩ 0 [] (by decide) rfl,
    C4_parameter_extraction.2.2.2.2.2 {} [] ⟨"a", false⟩ 0 [] (by decide) rfl⟩

/-! ## Claim C8 -- empty-stream extraction -/

lemma headIsDash_dashDash (s : String) : headIsDash ("--" ++ s) = true := by
  have hd : ("--" ++ s).data = '-' :: '-' :: s.data := by rw [String.data_append]; rfl
  simp [headIsDash, hd]

lemma headIsDash_dash (s : String) : headIsDash ("-" ++ s) = true := by
  have hd : ("-" ++ s).data = '-' :: s.data := by rw [String.data_append]; rfl
  simp [headIsDash, hd]

lemma lookupS_insertS {α : Type} (m : List (String × α)) (k : String) (v : α) (key : String) :
    lookupS (insertS m k v) key = if key = k then some v else lookupS m key := by
  induction m generalizing key with
  | nil =>
    by_cases h : key = k
    · simp [insertS, lookupS, h]
    · have h2 : ¬ k = key := fun hh => h hh.symm
      simp [insertS, lookupS, h, h2]
  | cons kv rest ih =>
    obtain ⟨k1, v1⟩ := kv
    by_cases hk : k1 = k
    · subst hk
      by_cases hkey : k1 = key
      · subst hkey
        simp [insertS, lookupS]
      · have h2 : ¬ key = k1 := fun hh => hkey hh.symm
        simp [insertS, lookupS, hkey, h2]
    · by_cases hkey : k1 = key
      · subst hkey
        have h2 : ¬ k1 = k := hk
        have h3 : ¬ k1 = k := hk
        simp [insertS, lookupS, h2, h3, hk]
      · simp [insertS, lookupS, hk, hkey, ih]
  
lemma lookupS_eraseS {α : Type} (m : List (String × α)) (t : String) (key : String) :
    lookupS (eraseS m t) key = if key = t then none else lookupS m key := by
  induction m generalizing key with
  | nil => simp [eraseS, lookupS]
  | cons kv rest ih =>
    obtain ⟨k1, v1⟩ := kv
    by_cases hk : k1 = t
    · subst hk
      by_cases hkey : key = k1
      · subst hkey
        simp [eraseS, lookupS, ih]
      · have h3 : ¬ k1 = key := fun hh => hkey hh.symm
        simp [eraseS, lookupS, hkey, h3, ih]
    · by_cases hkey : k1 = key
      · subst hkey
        have h2 : ¬ k1 = t := hk
        simp [eraseS, lookupS, h2, lookupS, fun hh : k1 = t => hk hh]
      · simp [eraseS, lookupS, hk, hkey, ih]

lemma parseFlagOne_nil (n : String) (item : IRegistryItem) (m : List (String × Bool)) :
    parseFlagOne n item ([], m)
      = ([], insertS (eraseS (insertS (eraseS m ("--" ++ n)) n false)
          ("-" ++ jsInterp item.shortHand)) n false) := rfl

lemma flagsFold_nil_fst (fl : List (String × IRegistryItem)) (m : List (String × Bool)) :
    (fl.foldl (fun st kv => parseFlagOne kv.1 kv.2 st) (([] : List String), m)).1 = [] := by
  induction fl generalizing m with
  | nil => rfl
  | cons kv rest ih =>
    rw [List.foldl_cons, parseFlagOne_nil]
    exact ih _

lemma flagsFold_nil_lookup (fl : List (String × IRegistryItem)) (m : List (String × Bool))
    (k : String) (hfl : ∀ kv ∈ fl, headIsDash kv.1 = false) (hk : headIsDash k = false) :
    lookupS (fl.foldl (fun st kv => parseFlagOne kv.1 kv.2 st) (([] : List String), m)).2 k
      = if k ∈ fl.map Prod.fst then some false else lookupS m k := by
  induction fl generalizing m with
  | nil => simp
  | cons kv rest ih =>
    have hkv : headIsDash kv.1 = false := hfl kv (by simp)
    have hrest : ∀ x ∈ rest, headIsDash x.1 = false := fun x hx => hfl x (by simp [hx])
    have hkt1 : k ≠ "--" ++ kv.1 := by
      intro h; rw [h] at hk; rw [headIsDash_dashDash] at hk; cases hk
    have hkt2 : k ≠ "-" ++ jsInterp kv.2.shortHand := by
      intro h; rw [h] at hk; rw [headIsDash_dash] at hk; cases hk
    rw [List.foldl_cons, parseFlagOne_nil, ih _ hrest]
    by_cases hmem : k ∈ rest.map Prod.fst
    · simp [hmem]
    · by_cases hkk : k = kv.1
      · simp [hmem, hkk, lookupS_insertS, lookupS_eraseS, hkt2, hkt1]
      · simp [hmem, hkk, lookupS_insertS, lookupS_eraseS, hkt2, hkt1]

lemma argsFold_nil (l : List (String × IRegistryItem)) (m : List (String × Value)) :
    l.foldlM (fun st kv => parseArgOne kv.1 kv.2 st) (([] : List String), m) = .ok ([], m) := by
  induction l with
  | nil => rfl
  | cons kv rest ih =>
    have h : parseArgOne kv.1 kv.2 ([], m) = .ok ([], m) :=
      foldArgSteps_id kv.2 kv.1 _ ([], m) (fun t _ => rfl)
    simp [List.foldlM, h, exceptBindOk]
    exact ih

lemma parseArguments_nil (p : Parser) : p.parseArguments [] = .ok ([], []) :=
  argsFold_nil p.arguments []

lemma parseParamsAux_nil (p : Parser) (pats : List IPattern)
    (h : ∀ pat ∈ pats, pat.required = false) :
    ∀ (i : Nat) (parsed : List (String × Value)),
      parseParamsAux p [] i pats parsed = .ok parsed := by
  induction pats with
  | nil => intro i parsed; rfl
  | cons pat rest ih =>
    intro i parsed
    have hpat : pat.required = false := h pat (by simp)
    have hrest : ∀ x ∈ rest, x.required = false := fun x hx => h x (by simp [hx])
    simp [parseParamsAux, parseParamSlot, List.getElem?_nil, hpat]
    exact ih hrest (i + 1) parsed


/-- C8 counterexample: the claim quantifies over every registry with an
all-optional pattern, but a registry containing flags named `--b` and `b`
(in that order) breaks it on the empty stream: while processing flag `b`,
the source's `delete parsed['--b']` (the token-shaped key) removes flag
`--b`'s already-recorded entry, so that registered flag ends up with no
entry at all instead of `false`. -/
theorem C8_counterexample :
    ((Parser.parseFlags { flags := [("--b", {}), ("b", {})] } []).2 = [("b", false)]) ∧
    (lookupS (Parser.parseFlags { flags := [("--b", {}), ("b", {})] } []).2 "--b" = none) ∧
    ("--b" ∈ ({ flags := [("--b", {}), ("b", {})] } : Parser).flags.map Prod.fst) := by
  refine ⟨by decide, by decide, by simp⟩

/-- C8 (amended): for every registry whose pattern declares only optional
parameters **and none of whose registered flag long names begins with
`-`** (so no flag key can collide with a searched token form and be
deleted by the extractor's cleanup), the full three-phase extraction on
an empty token stream succeeds, with an empty parsed-arguments map, an
empty parsed-parameters map, and every registered flag recorded `false`
in the parsed-flags map. -/
theorem C8_empty_stream (p : Parser)
    (hopt : ∀ pat ∈ p.pattern, pat.required = false)
    (hflags : ∀ kv ∈ p.flags, headIsDash kv.1 = false) :
    (p.parseArguments [] = .ok ([], [])) ∧
    ((p.parseFlags []).1 = []) ∧
    (∀ k ∈ p.flags.map Prod.fst, lookupS (p.parseFlags []).2 k = some false) ∧
    (p.parseParameters [] = .ok []) ∧
    (∃ M, p.parse [] = .ok ⟨[], M, []⟩ ∧
      ∀ k ∈ p.flags.map Prod.fst, lookupS M k = some false) := by
  have h1 : p.parseArguments [] = .ok ([], []) := parseArguments_nil p
  have h2 : (p.parseFlags []).1 = [] := flagsFold_nil_fst p.flags []
  have h3 : ∀ k ∈ p.flags.map Prod.fst, lookupS (p.parseFlags []).2 k = some false := by
    intro k hk
    obtain ⟨kv, hkv, hkeq⟩ := List.mem_map.mp hk
    have hkd : headIsDash k = false := hkeq ▸ hflags kv hkv
    rw [show p.parseFlags [] = p.flags.foldl (fun st kv => parseFlagOne kv.1 kv.2 st) ([], [])
      from rfl]
    rw [flagsFold_nil_lookup p.flags [] k hflags hkd]
    simp [hk]
  have h4 : p.parseParameters [] = .ok [] := by
    have hnot : ¬ ([] : List String).length > p.pattern.length := by simp
    simp [Parser.parseParameters, hnot]
    exact parseParamsAux_nil p p.pattern hopt 0 []
  refine ⟨h1, h2, h3, h4, ⟨(p.parseFlags []).2, ?_, h3⟩⟩
  have hpair : p.parseFlags [] = ([], (p.parseFlags []).2) := by
    exact Prod.ext h2 rfl
  simp [Parser.parse, h1]
  rw [hpair]
  simp [h4]

/-- Witness for C8: the amended theorem applied to the concrete registry
`c8Parser`. -/
theorem C8_witness :
    ∃ M, Parser.parse c8Parser [] = .ok ⟨[], M, []⟩ ∧
      ∀ k ∈ c8Parser.flags.map Prod.fst, lookupS M k = some false :=
  (C8_empty_stream c8Parser
    (by intro pat h; rw [List.mem_singleton.mp h])
    (by intro kv h; rw [List.mem_singleton.mp h]; rfl)).2.2.2.2


end Kraken
